import Mathlib

/-!
Verification of the cascading user-deletion workflow of GoLightly02API
(`src/modules/deleteUser.ts`), shallowly embedded in Lean 4.

The embedding mirrors the source stage by stage:
  * lookup stage (Steps 1-5 of the source): user existence check,
    owned-meditation resolution, privacy filtering, ElevenLabs asset
    resolution and path joining;
  * filesystem cleanup (Steps 6-7): best-effort unlink loops with
    per-file try/catch, modelled with an explicit filesystem state that
    records which paths exist and which paths make unlink throw;
  * transactional database cleanup (Steps 8-12): straight-line deletes
    inside one transaction, modelled with an injectable fault that makes
    a chosen destroy call throw, and rollback restoring the pre-transaction
    database on any error;
  * result aggregation (the returned DeleteUserResult record).

Every operation also emits a trace of events (file unlinks, warnings,
database destroys) so that ordering properties can be stated.
-/

/-- A row of the User table.  `username` and `rest` stand for the profile
fields that the deletion workflow never touches. -/
structure UserRec where
  id : Nat
  email : String
  isAdmin : Bool
  username : String
  rest : Nat
  deriving Repr, DecidableEq

/-- A row of the Meditation table (content item): visibility is the string
enum "private" / "public"; filePath and filename are nullable columns. -/
structure MeditationRec where
  id : Nat
  visibility : String
  filePath : Option String
  filename : Option String
  deriving Repr, DecidableEq

/-- A row of ContractUsersMeditations (ownership association). -/
structure ContractUM where
  userId : Nat
  meditationId : Nat
  deriving Repr, DecidableEq

/-- A row of ContractMeditationsElevenLabsFiles (asset join table). -/
structure ContractMEL where
  meditationId : Nat
  elevenLabsFileId : Nat
  deriving Repr, DecidableEq

/-- A row of ElevenLabsFiles (external-asset record). -/
structure ElevenLabsFileRec where
  id : Nat
  filePath : String
  filename : String
  deriving Repr, DecidableEq

/-- A row of ContractUserMeditationsListen (listen record). -/
structure ListenRec where
  userId : Nat
  meditationId : Nat
  listenCount : Nat
  favorite : Bool
  deriving Repr, DecidableEq

/-- A row of the Queue table. -/
structure QueueRec where
  id : Nat
  userId : Nat
  deriving Repr, DecidableEq

/-- The relational store: one list of rows per table touched by deleteUser. -/
structure DB where
  users : List UserRec
  meditations : List MeditationRec
  contractsUsersMeditations : List ContractUM
  contractsMeditationsEleven : List ContractMEL
  elevenLabsFiles : List ElevenLabsFileRec
  listens : List ListenRec
  queues : List QueueRec
  deriving Repr, DecidableEq

/-- The filesystem: which paths exist, and which paths make `unlinkSync`
throw (permission errors and the like). -/
structure FS where
  files : List String
  unlinkFailing : List String
  deriving Repr, DecidableEq

/-- Process environment: the PATH_MP3_OUTPUT fallback output directory. -/
structure Env where
  pathMp3Output : Option String
  deriving Repr, DecidableEq

/-- `path.join(dir, name)` as used by the source on directory + filename. -/
def pathJoin (dir nm : String) : String := dir ++ "/" ++ nm

/-- The per-transaction database steps at which a fault can be injected
(Steps 8-12 of the source). -/
inductive DbStep where
  | elevenLabsDestroy
  | meditationDestroy
  | listenDestroy
  | queueDestroy
  | userStep
  deriving Repr, DecidableEq

/-- Errors thrown by deleteUser: the 404 AppError of Step 1, or a database
error escaping the transaction (re-raised unchanged after rollback). -/
inductive DeleteUserError where
  | userNotFound
  | storageError (step : DbStep)
  deriving Repr, DecidableEq

/-- Observable events emitted during an execution: filesystem attempts and
their logged outcomes, then database mutations. -/
inductive Event where
  | fsAssetDeleted (p : String)
  | fsAssetNotFound (p : String)
  | fsAssetUnlinkFailed (p : String)
  | fsMedDeleted (p : String)
  | fsMedNotFound (p : String)
  | fsMedUnlinkFailed (p : String)
  | fsMedNoOutputPath (medId : Nat)
  | dbDestroyAssets (ids : List Nat)
  | dbDestroyMeds (ids : List Nat)
  | dbDestroyListens (userId : Nat)
  | dbDestroyQueues (userId : Nat)
  | dbUpdateUser (userId : Nat)
  | dbDeleteUser (userId : Nat)
  deriving Repr, DecidableEq

/-- Whether an event is a database mutation (true) or a filesystem-stage
event (false). -/
def Event.isDb : Event → Bool
  | .dbDestroyAssets _ => true
  | .dbDestroyMeds _ => true
  | .dbDestroyListens _ => true
  | .dbDestroyQueues _ => true
  | .dbUpdateUser _ => true
  | .dbDeleteUser _ => true
  | _ => false

/-- The ElevenLabs file with resolved full path, Step 5's output shape. -/
structure AssetFileToDelete where
  id : Nat
  fullPath : String
  deriving Repr, DecidableEq

/-- The record returned by deleteUser on success. -/
structure DeleteUserResult where
  userId : Nat
  meditationsDeleted : Nat
  elevenLabsFilesDeleted : Nat
  benevolentUserCreated : Bool
  deriving Repr, DecidableEq

/-- Step 2 of the source: meditation ids owned by the user, read off the
ContractUsersMeditations rows in table order. -/
def ownedMeditationIds (db : DB) (userId : Nat) : List Nat :=
  (db.contractsUsersMeditations.filter (fun c => c.userId == userId)).map
    (fun c => c.meditationId)

/-- Step 3 of the source: the deletion-target meditation ids.  With the
benevolent-user flag the owned set is narrowed to rows whose visibility is
"private"; otherwise the full owned set is kept. -/
def resolveTargetMedIds (db : DB) (userId : Nat) (flag : Bool) : List Nat :=
  let allIds := ownedMeditationIds db userId
  if allIds.isEmpty then []
  else if flag then
    ((db.meditations.filter
        (fun m => allIds.contains m.id && m.visibility == "private")).map
      (fun m => m.id))
  else allIds

/-- Insertion into a JS `Set` modelled on lists: keep first occurrence,
preserve insertion order. -/
def insertUnique (l : List Nat) (x : Nat) : List Nat :=
  if l.contains x then l else l ++ [x]

/-- `Array.from(new Set(...))`: deduplicate keeping first occurrences. -/
def dedupKeepFirst (l : List Nat) : List Nat :=
  l.foldl insertUnique []

/-- Step 4 of the source: distinct ElevenLabs file ids referenced by any
deletion-target meditation, deduplicated within this batch only. -/
def resolveAssetIds (db : DB) (targetIds : List Nat) : List Nat :=
  if targetIds.isEmpty then []
  else
    dedupKeepFirst
      ((db.contractsMeditationsEleven.filter
          (fun c => targetIds.contains c.meditationId)).map
        (fun c => c.elevenLabsFileId))

/-- Step 5 of the source: resolve each asset id to its record and join the
stored directory with the stored filename. -/
def resolveAssetFiles (db : DB) (assetIds : List Nat) :
    List AssetFileToDelete :=
  if assetIds.isEmpty then []
  else
    (db.elevenLabsFiles.filter (fun f => assetIds.contains f.id)).map
      (fun f => { id := f.id, fullPath := pathJoin f.filePath f.filename })

/-- Step 6 of the source: the per-asset-file unlink loop.  Each iteration
checks existence; present files are unlinked (counted) unless unlink
throws, in which case the error is logged and the loop continues; missing
files are logged as warnings and skipped.  Returns the filesystem after
the loop, the deleted-files count, and the emitted events. -/
def deleteAssetFiles (fs : FS) : List AssetFileToDelete →
    FS × Nat × List Event
  | [] => (fs, 0, [])
  | f :: rest =>
    if fs.files.contains f.fullPath then
      if fs.unlinkFailing.contains f.fullPath then
        let (fs1, n, ev) := deleteAssetFiles fs rest
        (fs1, n, .fsAssetUnlinkFailed f.fullPath :: ev)
      else
        let fsDel : FS := { fs with files := fs.files.erase f.fullPath }
        let (fs1, n, ev) := deleteAssetFiles fsDel rest
        (fs1, n + 1, .fsAssetDeleted f.fullPath :: ev)
    else
      let (fs1, n, ev) := deleteAssetFiles fs rest
      (fs1, n, .fsAssetNotFound f.fullPath :: ev)

/-- The body of one iteration of Step 7 of the source: resolve the output
path of one targeted meditation (stored directory first, PATH_MP3_OUTPUT
as fallback, warn-and-skip when neither is available, silent skip when no
filename is recorded) and apply the exists/unlink/warn policy. -/
def deleteOneMeditationFile (env : Env) (fs : FS) (m : MeditationRec) :
    FS × Nat × List Event :=
  match m.filename with
  | none => (fs, 0, [])
  | some fn =>
    let fullPath? : Option String :=
      match m.filePath with
      | some dp => some (pathJoin dp fn)
      | none =>
        match env.pathMp3Output with
        | some op => some (pathJoin op fn)
        | none => none
    match fullPath? with
    | none => (fs, 0, [.fsMedNoOutputPath m.id])
    | some p =>
      if fs.files.contains p then
        if fs.unlinkFailing.contains p then
          (fs, 0, [.fsMedUnlinkFailed p])
        else
          ({ fs with files := fs.files.erase p }, 1, [.fsMedDeleted p])
      else
        (fs, 0, [.fsMedNotFound p])

/-- Step 7 of the source: the loop over the refetched deletion-target
meditations. -/
def deleteMeditationFilesLoop (env : Env) (fs : FS) :
    List MeditationRec → FS × Nat × List Event
  | [] => (fs, 0, [])
  | m :: rest =>
    let (fs1, n1, ev1) := deleteOneMeditationFile env fs m
    let (fs2, n2, ev2) := deleteMeditationFilesLoop env fs1 rest
    (fs2, n1 + n2, ev1 ++ ev2)

/-- Step 7's guard and refetch: skipped entirely when the deletion-target
set is empty, otherwise the targeted meditation rows are fetched again and
looped over. -/
def deleteMeditationFiles (db : DB) (env : Env) (fs : FS)
    (targetIds : List Nat) : FS × Nat × List Event :=
  if targetIds.isEmpty then (fs, 0, [])
  else
    deleteMeditationFilesLoop env fs
      (db.meditations.filter (fun m => targetIds.contains m.id))

/-- The Step 12 anonymization update applied to one user row:
`User.update({email: ..., isAdmin: false}, {where (id = userId)})`. -/
def applyAnonymize (userId : Nat) (u : UserRec) : UserRec :=
  if u.id == userId then
    { u with
      email := "BenevolentUser" ++ toString userId ++ "@go-lightly.love"
      isAdmin := false }
  else u

/-- Steps 8-12 of the source: the body of the sequelize transaction.
Each destroy may be made to throw by the injected fault; a throw aborts
the body with the events emitted so far.  On success returns the mutated
database, the meditation destroy-count (the authoritative
meditationsDeleted figure), the benevolentUserCreated flag and the
emitted events. -/
def dbCleanup (db : DB) (userId : Nat) (flag : Bool)
    (targetIds assetIds : List Nat) (fault : Option DbStep) :
    Except (DbStep × List Event) (DB × Nat × Bool × List Event) :=
  -- Step 12: anonymize or delete the user record, then commit
  let step12 : DB → Nat → List Event →
      Except (DbStep × List Event) (DB × Nat × Bool × List Event) :=
    fun db4 medCount ev =>
      if fault == some DbStep.userStep then .error (DbStep.userStep, ev)
      else if flag then
        .ok ({ db4 with users := db4.users.map (applyAnonymize userId) },
          medCount, true, ev ++ [Event.dbUpdateUser userId])
      else
        .ok ({ db4 with users := db4.users.filter (fun u => !(u.id == userId)) },
          medCount, false, ev ++ [Event.dbDeleteUser userId])
  -- Step 11: delete all of the user's queue records
  let step11 : DB → Nat → List Event →
      Except (DbStep × List Event) (DB × Nat × Bool × List Event) :=
    fun db3 medCount ev =>
      if fault == some DbStep.queueDestroy then .error (DbStep.queueDestroy, ev)
      else
        step12
          { db3 with queues := db3.queues.filter (fun q => !(q.userId == userId)) }
          medCount (ev ++ [Event.dbDestroyQueues userId])
  -- Step 10: delete all of the user's listen records
  let step10 : DB → Nat → List Event →
      Except (DbStep × List Event) (DB × Nat × Bool × List Event) :=
    fun db2 medCount ev =>
      if fault == some DbStep.listenDestroy then .error (DbStep.listenDestroy, ev)
      else
        step11
          { db2 with listens := db2.listens.filter (fun l => !(l.userId == userId)) }
          medCount (ev ++ [Event.dbDestroyListens userId])
  -- Step 9: delete Meditation records; cascades to the contract tables
  let step9 : DB → List Event →
      Except (DbStep × List Event) (DB × Nat × Bool × List Event) :=
    fun db1 ev =>
      if targetIds.isEmpty then step10 db1 0 ev
      else if fault == some DbStep.meditationDestroy then
        .error (DbStep.meditationDestroy, ev)
      else
        step10
          { db1 with
              meditations :=
                db1.meditations.filter (fun m => !(targetIds.contains m.id))
              contractsUsersMeditations :=
                db1.contractsUsersMeditations.filter
                  (fun c => !(targetIds.contains c.meditationId))
              contractsMeditationsEleven :=
                db1.contractsMeditationsEleven.filter
                  (fun c => !(targetIds.contains c.meditationId)) }
          (db1.meditations.filter (fun m => targetIds.contains m.id)).length
          (ev ++ [Event.dbDestroyMeds targetIds])
  -- Step 8: delete ElevenLabsFiles records (skipped when the set is empty)
  if assetIds.isEmpty then step9 db []
  else if fault == some DbStep.elevenLabsDestroy then
    .error (DbStep.elevenLabsDestroy, [])
  else
    step9
      { db with
          elevenLabsFiles :=
            db.elevenLabsFiles.filter (fun f => !(assetIds.contains f.id)) }
      [Event.dbDestroyAssets assetIds]

/-- The full observable outcome of one deleteUser invocation. -/
structure Outcome where
  result : Except DeleteUserError DeleteUserResult
  db : DB
  fs : FS
  events : List Event
  deriving Repr

/-- Step 1 of the source: `User.findByPk(userId)` succeeds. -/
def userExists (db : DB) (userId : Nat) : Bool :=
  db.users.any (fun u => u.id == userId)

/-- The embedded deleteUser operation.  `fault` injects a database failure
at one chosen transactional step (none on a healthy run).  The transaction
semantics of Step 13 are explicit: a throw inside the body rolls the
database back to its pre-transaction state and the error is re-raised,
while the filesystem changes of Steps 6-7 are kept either way. -/
def deleteUserModel (db : DB) (fs : FS) (env : Env) (userId : Nat)
    (flag : Bool) (fault : Option DbStep) : Outcome :=
  if !(userExists db userId) then
    { result := .error .userNotFound, db := db, fs := fs, events := [] }
  else
    let targetIds := resolveTargetMedIds db userId flag
    let assetIds := resolveAssetIds db targetIds
    let assetFiles := resolveAssetFiles db assetIds
    let (fsA, assetCount, evA) := deleteAssetFiles fs assetFiles
    let (fsM, _medFileCount, evM) := deleteMeditationFiles db env fsA targetIds
    match dbCleanup db userId flag targetIds assetIds fault with
    | .ok (db1, medCount, benevolent, evDb) =>
      { result := .ok
          { userId := userId
            meditationsDeleted := medCount
            elevenLabsFilesDeleted := assetCount
            benevolentUserCreated := benevolent }
        db := db1
        fs := fsM
        events := evA ++ evM ++ evDb }
    | .error (step, evDb) =>
      { result := .error (.storageError step)
        db := db
        fs := fsM
        events := evA ++ evM ++ evDb }

/-! ### Helper lemmas -/

theorem mem_insertUnique (acc : List Nat) (y x : Nat) :
    x ∈ insertUnique acc y ↔ x ∈ acc ∨ x = y := by
  unfold insertUnique
  by_cases h : acc.contains y
  · have hy : y ∈ acc := by simpa using h
    simp only [h, if_true]
    constructor
    · exact Or.inl
    · rintro (hx | rfl)
      · exact hx
      · exact hy
  · have hy : y ∉ acc := by simpa using h
    simp [hy]

theorem mem_foldl_insertUnique (l : List Nat) (acc : List Nat) (x : Nat) :
    x ∈ l.foldl insertUnique acc ↔ x ∈ acc ∨ x ∈ l := by
  induction l generalizing acc with
  | nil => simp
  | cons y ys ih =>
    simp only [List.foldl_cons, ih, mem_insertUnique, List.mem_cons]
    tauto

theorem mem_dedupKeepFirst (l : List Nat) (x : Nat) :
    x ∈ dedupKeepFirst l ↔ x ∈ l := by
  simp [dedupKeepFirst, mem_foldl_insertUnique]

/-- The output path Step 7 resolves for one meditation (lines 192-209 of
the source): none when no filename is recorded or when neither a stored
directory nor PATH_MP3_OUTPUT is available. -/
def medFullPath (env : Env) (m : MeditationRec) : Option String :=
  match m.filename with
  | none => none
  | some fn =>
    match m.filePath with
    | some dp => some (pathJoin dp fn)
    | none => env.pathMp3Output.map (fun op => pathJoin op fn)

theorem deleteAssetFiles_failing_inv (files : List AssetFileToDelete) (fs : FS) :
    (deleteAssetFiles fs files).1.unlinkFailing = fs.unlinkFailing := by
  induction files generalizing fs with
  | nil => rfl
  | cons f rest ih =>
    by_cases h1 : f.fullPath ∈ fs.files
    · by_cases h2 : f.fullPath ∈ fs.unlinkFailing
      · simp [deleteAssetFiles, h1, h2, ih]
      · simp [deleteAssetFiles, h1, h2, ih]
    · simp [deleteAssetFiles, h1, ih]

theorem deleteAssetFiles_files_frame (files : List AssetFileToDelete)
    (fs : FS) (p : String) (hp : p ∈ fs.files)
    (hnp : ∀ f ∈ files, p ≠ f.fullPath) :
    p ∈ (deleteAssetFiles fs files).1.files := by
  induction files generalizing fs with
  | nil => exact hp
  | cons f rest ih =>
    simp only [deleteAssetFiles]
    by_cases h1 : fs.files.contains f.fullPath
    · by_cases h2 : fs.unlinkFailing.contains f.fullPath
      · simp only [h1, h2, if_true]
        exact ih fs hp (fun g hg => hnp g (List.mem_cons_of_mem f hg))
      · simp only [h1, h2, if_true, Bool.false_eq_true, if_false]
        refine ih _ ?_ (fun g hg => hnp g (List.mem_cons_of_mem f hg))
        exact List.mem_erase_of_ne (hnp f (List.mem_cons_self f rest)) |>.mpr hp
    · simp only [h1, Bool.false_eq_true, if_false]
      exact ih fs hp (fun g hg => hnp g (List.mem_cons_of_mem f hg))

theorem deleteAssetFiles_all_missing (files : List AssetFileToDelete)
    (fs : FS) (h : ∀ f ∈ files, f.fullPath ∉ fs.files) :
    deleteAssetFiles fs files =
      (fs, 0, files.map (fun f => Event.fsAssetNotFound f.fullPath)) := by
  induction files generalizing fs with
  | nil => rfl
  | cons f rest ih =>
    have h1 : ¬ (fs.files.contains f.fullPath = true) := by
      simpa using h f (List.mem_cons_self f rest)
    simp only [deleteAssetFiles, h1, Bool.false_eq_true, if_false, List.map_cons]
    rw [ih fs (fun g hg => h g (List.mem_cons_of_mem f hg))]

theorem deleteAssetFiles_events_length (files : List AssetFileToDelete)
    (fs : FS) :
    (deleteAssetFiles fs files).2.2.length = files.length := by
  induction files generalizing fs with
  | nil => rfl
  | cons f rest ih =>
    by_cases h1 : f.fullPath ∈ fs.files
    · by_cases h2 : f.fullPath ∈ fs.unlinkFailing
      · simp [deleteAssetFiles, h1, h2, ih]
      · simp [deleteAssetFiles, h1, h2, ih]
    · simp [deleteAssetFiles, h1, ih]

theorem deleteAssetFiles_events_fsKind (files : List AssetFileToDelete)
    (fs : FS) :
    ∀ e ∈ (deleteAssetFiles fs files).2.2, e.isDb = false := by
  induction files generalizing fs with
  | nil => intro e he; cases he
  | cons f rest ih =>
    simp only [deleteAssetFiles]
    by_cases h1 : fs.files.contains f.fullPath
    · by_cases h2 : fs.unlinkFailing.contains f.fullPath
      · simp only [h1, h2, if_true]
        intro e he
        rcases List.mem_cons.mp he with rfl | he'
        · rfl
        · exact ih fs e he'
      · simp only [h1, h2, if_true, Bool.false_eq_true, if_false]
        intro e he
        rcases List.mem_cons.mp he with rfl | he'
        · rfl
        · exact ih _ e he'
    · simp only [h1, Bool.false_eq_true, if_false]
      intro e he
      rcases List.mem_cons.mp he with rfl | he'
      · rfl
      · exact ih fs e he'

theorem deleteAssetFiles_missing_single (fs : FS) (f : AssetFileToDelete)
    (h : f.fullPath ∉ fs.files) :
    deleteAssetFiles fs [f] = (fs, 0, [Event.fsAssetNotFound f.fullPath]) := by
  simp [deleteAssetFiles, h]

theorem deleteAssetFiles_failing_head (fs : FS) (f : AssetFileToDelete)
    (rest : List AssetFileToDelete) (h1 : f.fullPath ∈ fs.files)
    (h2 : f.fullPath ∈ fs.unlinkFailing) :
    deleteAssetFiles fs (f :: rest) =
      ((deleteAssetFiles fs rest).1, (deleteAssetFiles fs rest).2.1,
        Event.fsAssetUnlinkFailed f.fullPath :: (deleteAssetFiles fs rest).2.2) := by
  simp [deleteAssetFiles, h1, h2]

theorem deleteOneMeditationFile_failing_inv (env : Env) (fs : FS)
    (m : MeditationRec) :
    (deleteOneMeditationFile env fs m).1.unlinkFailing = fs.unlinkFailing := by
  rcases m with ⟨mid, vis, mfp, mfn⟩
  cases mfn with
  | none => rfl
  | some fn =>
    cases mfp with
    | some dp =>
      by_cases h1 : pathJoin dp fn ∈ fs.files
      · by_cases h2 : pathJoin dp fn ∈ fs.unlinkFailing
        · simp [deleteOneMeditationFile, h1, h2]
        · simp [deleteOneMeditationFile, h1, h2]
      · simp [deleteOneMeditationFile, h1]
    | none =>
      cases henv : env.pathMp3Output with
      | none => simp [deleteOneMeditationFile, henv]
      | some op =>
        by_cases h1 : pathJoin op fn ∈ fs.files
        · by_cases h2 : pathJoin op fn ∈ fs.unlinkFailing
          · simp [deleteOneMeditationFile, henv, h1, h2]
          · simp [deleteOneMeditationFile, henv, h1, h2]
        · simp [deleteOneMeditationFile, henv, h1]

theorem deleteOneMeditationFile_frame (env : Env) (fs : FS)
    (m : MeditationRec) (p : String) (hp : p ∈ fs.files)
    (hne : medFullPath env m ≠ some p) :
    p ∈ (deleteOneMeditationFile env fs m).1.files := by
  rcases m with ⟨mid, vis, mfp, mfn⟩
  cases mfn with
  | none => exact hp
  | some fn =>
    cases mfp with
    | some dp =>
      have hne' : p ≠ pathJoin dp fn := by
        intro he
        exact hne (by simp [medFullPath, he])
      by_cases h1 : pathJoin dp fn ∈ fs.files
      · by_cases h2 : pathJoin dp fn ∈ fs.unlinkFailing
        · simpa [deleteOneMeditationFile, h1, h2] using hp
        · simp [deleteOneMeditationFile, h1, h2]
          exact (List.mem_erase_of_ne hne').mpr hp
      · simpa [deleteOneMeditationFile, h1] using hp
    | none =>
      cases henv : env.pathMp3Output with
      | none => simpa [deleteOneMeditationFile, henv] using hp
      | some op =>
        have hne' : p ≠ pathJoin op fn := by
          intro he
          exact hne (by simp [medFullPath, henv, he])
        by_cases h1 : pathJoin op fn ∈ fs.files
        · by_cases h2 : pathJoin op fn ∈ fs.unlinkFailing
          · simpa [deleteOneMeditationFile, henv, h1, h2] using hp
          · simp [deleteOneMeditationFile, henv, h1, h2]
            exact (List.mem_erase_of_ne hne').mpr hp
        · simpa [deleteOneMeditationFile, henv, h1] using hp

theorem deleteOneMeditationFile_events_fsKind (env : Env) (fs : FS)
    (m : MeditationRec) :
    ∀ e ∈ (deleteOneMeditationFile env fs m).2.2, e.isDb = false := by
  rcases m with ⟨mid, vis, mfp, mfn⟩
  cases mfn with
  | none => intro e he; cases he
  | some fn =>
    cases mfp with
    | some dp =>
      by_cases h1 : pathJoin dp fn ∈ fs.files
      · by_cases h2 : pathJoin dp fn ∈ fs.unlinkFailing
        · simp [deleteOneMeditationFile, h1, h2, Event.isDb]
        · simp [deleteOneMeditationFile, h1, h2, Event.isDb]
      · simp [deleteOneMeditationFile, h1, Event.isDb]
    | none =>
      cases henv : env.pathMp3Output with
      | none => simp [deleteOneMeditationFile, henv, Event.isDb]
      | some op =>
        by_cases h1 : pathJoin op fn ∈ fs.files
        · by_cases h2 : pathJoin op fn ∈ fs.unlinkFailing
          · simp [deleteOneMeditationFile, henv, h1, h2, Event.isDb]
          · simp [deleteOneMeditationFile, henv, h1, h2, Event.isDb]
        · simp [deleteOneMeditationFile, henv, h1, Event.isDb]

theorem deleteMeditationFilesLoop_frame (meds : List MeditationRec)
    (env : Env) (fs : FS) (p : String) (hp : p ∈ fs.files)
    (hne : ∀ m ∈ meds, medFullPath env m ≠ some p) :
    p ∈ (deleteMeditationFilesLoop env fs meds).1.files := by
  induction meds generalizing fs with
  | nil => exact hp
  | cons m rest ih =>
    simp only [deleteMeditationFilesLoop]
    exact ih _
      (deleteOneMeditationFile_frame env fs m p hp
        (hne m (List.mem_cons_self m rest)))
      (fun g hg => hne g (List.mem_cons_of_mem m hg))

theorem deleteMeditationFilesLoop_events_fsKind (meds : List MeditationRec)
    (env : Env) (fs : FS) :
    ∀ e ∈ (deleteMeditationFilesLoop env fs meds).2.2, e.isDb = false := by
  induction meds generalizing fs with
  | nil => intro e he; cases he
  | cons m rest ih =>
    simp only [deleteMeditationFilesLoop]
    intro e he
    rcases List.mem_append.mp he with he' | he'
    · exact deleteOneMeditationFile_events_fsKind env fs m e he'
    · exact ih _ e he'

theorem deleteMeditationFilesLoop_warn (meds : List MeditationRec)
    (env : Env) (fs : FS) (m : MeditationRec) (fn : String)
    (hm : m ∈ meds) (hfn : m.filename = some fn) (hfp : m.filePath = none)
    (henv : env.pathMp3Output = none) :
    Event.fsMedNoOutputPath m.id ∈ (deleteMeditationFilesLoop env fs meds).2.2 := by
  induction meds generalizing fs with
  | nil => cases hm
  | cons m0 rest ih =>
    simp only [deleteMeditationFilesLoop]
    rcases List.mem_cons.mp hm with rfl | hm'
    · apply List.mem_append_left
      rcases m with ⟨mid, vis, mfp, mfn⟩
      simp only at hfn hfp
      subst hfn hfp
      simp [deleteOneMeditationFile, henv]
    · exact List.mem_append_right _ (ih _ hm')

theorem dbCleanup_none (db : DB) (uid : Nat) (flag : Bool) (t a : List Nat) :
    dbCleanup db uid flag t a none =
      .ok
        ({ users :=
              if flag then db.users.map (applyAnonymize uid)
              else db.users.filter (fun u => !(u.id == uid))
           meditations := db.meditations.filter (fun m => !(t.contains m.id))
           contractsUsersMeditations :=
              db.contractsUsersMeditations.filter
                (fun c => !(t.contains c.meditationId))
           contractsMeditationsEleven :=
              db.contractsMeditationsEleven.filter
                (fun c => !(t.contains c.meditationId))
           elevenLabsFiles :=
              db.elevenLabsFiles.filter (fun f => !(a.contains f.id))
           listens := db.listens.filter (fun l => !(l.userId == uid))
           queues := db.queues.filter (fun q => !(q.userId == uid)) },
          (db.meditations.filter (fun m => t.contains m.id)).length,
          flag,
          (if a.isEmpty then [] else [Event.dbDestroyAssets a]) ++
            (if t.isEmpty then [] else [Event.dbDestroyMeds t]) ++
            [Event.dbDestroyListens uid, Event.dbDestroyQueues uid,
              if flag then Event.dbUpdateUser uid else Event.dbDeleteUser uid]) := by
  have hb : ∀ s : DbStep, ((none : Option DbStep) == some s) = false := fun _ => rfl
  by_cases ha : a.isEmpty
  · have ha' : a = [] := List.isEmpty_iff.mp ha
    subst ha'
    by_cases ht : t.isEmpty
    · have ht' : t = [] := List.isEmpty_iff.mp ht
      subst ht'
      cases flag <;> simp [dbCleanup, hb, List.filter_true]
    · cases flag <;> simp [dbCleanup, hb, ht, List.filter_true]
  · by_cases ht : t.isEmpty
    · have ht' : t = [] := List.isEmpty_iff.mp ht
      subst ht'
      cases flag <;> simp [dbCleanup, hb, ha, List.filter_true]
    · cases flag <;> simp [dbCleanup, hb, ha, ht, List.filter_true]

theorem dbCleanup_queueFault (db : DB) (uid : Nat) (flag : Bool)
    (t a : List Nat) :
    dbCleanup db uid flag t a (some DbStep.queueDestroy) =
      .error (DbStep.queueDestroy,
        (if a.isEmpty then [] else [Event.dbDestroyAssets a]) ++
          (if t.isEmpty then [] else [Event.dbDestroyMeds t]) ++
          [Event.dbDestroyListens uid]) := by
  have h1 : ((some DbStep.queueDestroy : Option DbStep) ==
      some DbStep.elevenLabsDestroy) = false := rfl
  have h2 : ((some DbStep.queueDestroy : Option DbStep) ==
      some DbStep.meditationDestroy) = false := rfl
  have h3 : ((some DbStep.queueDestroy : Option DbStep) ==
      some DbStep.listenDestroy) = false := rfl
  have h4 : ((some DbStep.queueDestroy : Option DbStep) ==
      some DbStep.queueDestroy) = true := rfl
  by_cases ha : a.isEmpty <;> by_cases ht : t.isEmpty <;>
    simp [dbCleanup, h1, h2, h3, h4, ha, ht]

theorem dbCleanup_elevenFault_noFire (db : DB) (uid : Nat) (flag : Bool)
    (t a : List Nat) (ha : a.isEmpty = true) :
    dbCleanup db uid flag t a (some DbStep.elevenLabsDestroy) =
      dbCleanup db uid flag t a none := by
  have h2 : ((some DbStep.elevenLabsDestroy : Option DbStep) ==
      some DbStep.meditationDestroy) = false := rfl
  have h3 : ((some DbStep.elevenLabsDestroy : Option DbStep) ==
      some DbStep.listenDestroy) = false := rfl
  have h4 : ((some DbStep.elevenLabsDestroy : Option DbStep) ==
      some DbStep.queueDestroy) = false := rfl
  have h5 : ((some DbStep.elevenLabsDestroy : Option DbStep) ==
      some DbStep.userStep) = false := rfl
  by_cases ht : t.isEmpty <;> simp [dbCleanup, ha, ht, h2, h3, h4, h5]

theorem dbCleanup_elevenFault_fire (db : DB) (uid : Nat) (flag : Bool)
    (t a : List Nat) (ha : a.isEmpty = false) :
    dbCleanup db uid flag t a (some DbStep.elevenLabsDestroy) =
      .error (DbStep.elevenLabsDestroy, []) := by
  simp [dbCleanup, ha]

theorem dbCleanup_medFault_noFire (db : DB) (uid : Nat) (flag : Bool)
    (t a : List Nat) (ht : t.isEmpty = true) :
    dbCleanup db uid flag t a (some DbStep.meditationDestroy) =
      dbCleanup db uid flag t a none := by
  have h1 : ((some DbStep.meditationDestroy : Option DbStep) ==
      some DbStep.elevenLabsDestroy) = false := rfl
  have h3 : ((some DbStep.meditationDestroy : Option DbStep) ==
      some DbStep.listenDestroy) = false := rfl
  have h4 : ((some DbStep.meditationDestroy : Option DbStep) ==
      some DbStep.queueDestroy) = false := rfl
  have h5 : ((some DbStep.meditationDestroy : Option DbStep) ==
      some DbStep.userStep) = false := rfl
  by_cases ha : a.isEmpty <;> simp [dbCleanup, ha, ht, h1, h3, h4, h5]

theorem dbCleanup_medFault_fire (db : DB) (uid : Nat) (flag : Bool)
    (t a : List Nat) (ht : t.isEmpty = false) :
    dbCleanup db uid flag t a (some DbStep.meditationDestroy) =
      .error (DbStep.meditationDestroy,
        if a.isEmpty then [] else [Event.dbDestroyAssets a]) := by
  have h1 : ((some DbStep.meditationDestroy : Option DbStep) ==
      some DbStep.elevenLabsDestroy) = false := rfl
  by_cases ha : a.isEmpty <;> simp [dbCleanup, ha, ht, h1]

theorem dbCleanup_listenFault (db : DB) (uid : Nat) (flag : Bool)
    (t a : List Nat) :
    dbCleanup db uid flag t a (some DbStep.listenDestroy) =
      .error (DbStep.listenDestroy,
        (if a.isEmpty then [] else [Event.dbDestroyAssets a]) ++
          (if t.isEmpty then [] else [Event.dbDestroyMeds t])) := by
  have h1 : ((some DbStep.listenDestroy : Option DbStep) ==
      some DbStep.elevenLabsDestroy) = false := rfl
  have h2 : ((some DbStep.listenDestroy : Option DbStep) ==
      some DbStep.meditationDestroy) = false := rfl
  have h3 : ((some DbStep.listenDestroy : Option DbStep) ==
      some DbStep.listenDestroy) = true := rfl
  by_cases ha : a.isEmpty <;> by_cases ht : t.isEmpty <;>
    simp [dbCleanup, ha, ht, h1, h2, h3]

theorem dbCleanup_userFault (db : DB) (uid : Nat) (flag : Bool)
    (t a : List Nat) :
    dbCleanup db uid flag t a (some DbStep.userStep) =
      .error (DbStep.userStep,
        (if a.isEmpty then [] else [Event.dbDestroyAssets a]) ++
          (if t.isEmpty then [] else [Event.dbDestroyMeds t]) ++
          [Event.dbDestroyListens uid, Event.dbDestroyQueues uid]) := by
  have h1 : ((some DbStep.userStep : Option DbStep) ==
      some DbStep.elevenLabsDestroy) = false := rfl
  have h2 : ((some DbStep.userStep : Option DbStep) ==
      some DbStep.meditationDestroy) = false := rfl
  have h3 : ((some DbStep.userStep : Option DbStep) ==
      some DbStep.listenDestroy) = false := rfl
  have h4 : ((some DbStep.userStep : Option DbStep) ==
      some DbStep.queueDestroy) = false := rfl
  have h5 : ((some DbStep.userStep : Option DbStep) ==
      some DbStep.userStep) = true := rfl
  by_cases ha : a.isEmpty <;> by_cases ht : t.isEmpty <;>
    simp [dbCleanup, ha, ht, h1, h2, h3, h4, h5]

theorem deleteUserModel_error_db (db : DB) (fs : FS) (env : Env) (uid : Nat)
    (flag : Bool) (fault : Option DbStep) (s : DbStep)
    (h : (deleteUserModel db fs env uid flag fault).result =
      .error (.storageError s)) :
    (deleteUserModel db fs env uid flag fault).db = db := by
  by_cases hu : userExists db uid
  · simp only [deleteUserModel, hu, Bool.not_true, Bool.false_eq_true,
      if_false] at h ⊢
    rcases hA : deleteAssetFiles fs
        (resolveAssetFiles db
          (resolveAssetIds db (resolveTargetMedIds db uid flag))) with
      ⟨fsA, cA, evA⟩
    rcases hM : deleteMeditationFiles db env fsA
        (resolveTargetMedIds db uid flag) with ⟨fsM, cM, evM⟩
    rcases hdc : dbCleanup db uid flag (resolveTargetMedIds db uid flag)
        (resolveAssetIds db (resolveTargetMedIds db uid flag)) fault with
      e | v
    · rcases e with ⟨s', ev⟩
      simp [hA, hM, hdc]
    · rcases v with ⟨db1, ⟨mc, ⟨bn, evdb⟩⟩⟩
      simp [hA, hM, hdc] at h
  · have hu' : userExists db uid = false := by simpa using hu
    simp only [deleteUserModel, hu', Bool.not_false, if_true] at h
    cases h

theorem deleteUserModel_none_eq (db : DB) (fs : FS) (env : Env) (uid : Nat)
    (flag : Bool) (hu : userExists db uid = true) :
    deleteUserModel db fs env uid flag none =
      { result := .ok
          { userId := uid
            meditationsDeleted :=
              (db.meditations.filter
                (fun m => (resolveTargetMedIds db uid flag).contains m.id)).length
            elevenLabsFilesDeleted :=
              (deleteAssetFiles fs
                (resolveAssetFiles db
                  (resolveAssetIds db (resolveTargetMedIds db uid flag)))).2.1
            benevolentUserCreated := flag }
        db :=
          { users :=
              if flag then db.users.map (applyAnonymize uid)
              else db.users.filter (fun u => !(u.id == uid))
            meditations :=
              db.meditations.filter
                (fun m => !((resolveTargetMedIds db uid flag).contains m.id))
            contractsUsersMeditations :=
              db.contractsUsersMeditations.filter
                (fun c => !((resolveTargetMedIds db uid flag).contains c.meditationId))
            contractsMeditationsEleven :=
              db.contractsMeditationsEleven.filter
                (fun c => !((resolveTargetMedIds db uid flag).contains c.meditationId))
            elevenLabsFiles :=
              db.elevenLabsFiles.filter
                (fun f =>
                  !((resolveAssetIds db (resolveTargetMedIds db uid flag)).contains f.id))
            listens := db.listens.filter (fun l => !(l.userId == uid))
            queues := db.queues.filter (fun q => !(q.userId == uid)) }
        fs :=
          (deleteMeditationFiles db env
            (deleteAssetFiles fs
              (resolveAssetFiles db
                (resolveAssetIds db (resolveTargetMedIds db uid flag)))).1
            (resolveTargetMedIds db uid flag)).1
        events :=
          (deleteAssetFiles fs
            (resolveAssetFiles db
              (resolveAssetIds db (resolveTargetMedIds db uid flag)))).2.2 ++
          (deleteMeditationFiles db env
            (deleteAssetFiles fs
              (resolveAssetFiles db
                (resolveAssetIds db (resolveTargetMedIds db uid flag)))).1
            (resolveTargetMedIds db uid flag)).2.2 ++
          ((if (resolveAssetIds db (resolveTargetMedIds db uid flag)).isEmpty
              then []
              else [Event.dbDestroyAssets
                (resolveAssetIds db (resolveTargetMedIds db uid flag))]) ++
            (if (resolveTargetMedIds db uid flag).isEmpty then []
              else [Event.dbDestroyMeds (resolveTargetMedIds db uid flag)]) ++
            [Event.dbDestroyListens uid, Event.dbDestroyQueues uid,
              if flag then Event.dbUpdateUser uid
              else Event.dbDeleteUser uid]) } := by
  simp only [deleteUserModel, hu, Bool.not_true, Bool.false_eq_true, if_false]
  rw [dbCleanup_none]

theorem deleteUserModel_notFound (db : DB) (fs : FS) (env : Env) (uid : Nat)
    (flag : Bool) (fault : Option DbStep) (hu : userExists db uid = false) :
    deleteUserModel db fs env uid flag fault =
      { result := .error .userNotFound, db := db, fs := fs, events := [] } := by
  simp [deleteUserModel, hu]

/-- A sample database: user 5 owns private meditation 1 and public
meditation 2; ElevenLabs asset 9 is linked to both; user 5 and an
unrelated user 7 have listen and queue rows. -/
def sampleDB : DB :=
  { users := [{ id := 5, email := "a@b.c", isAdmin := true, username := "u", rest := 0 }]
    meditations :=
      [{ id := 1, visibility := "private", filePath := some "/m", filename := some "one.mp3" },
       { id := 2, visibility := "public", filePath := some "/m", filename := some "two.mp3" }]
    contractsUsersMeditations := [⟨5, 1⟩, ⟨5, 2⟩]
    contractsMeditationsEleven := [⟨1, 9⟩, ⟨2, 9⟩]
    elevenLabsFiles := [{ id := 9, filePath := "/e", filename := "nine.mp3" }]
    listens := [⟨5, 2, 3, true⟩, ⟨7, 1, 1, false⟩]
    queues := [⟨1, 5⟩, ⟨2, 7⟩] }

/-- A sample filesystem holding the three files of `sampleDB`. -/
def sampleFS : FS :=
  { files := ["/m/one.mp3", "/m/two.mp3", "/e/nine.mp3"], unlinkFailing := [] }

/-- A sample environment with a configured output directory. -/
def sampleEnv : Env := { pathMp3Output := some "/out" }

/-- C7: for a userId matching no existing user, deleteUser raises the
UserNotFound error (the 404 AppError) before any filesystem or database
mutation: the outcome carries the database and filesystem unchanged and an
empty event trace. -/
theorem C7_user_not_found_short_circuits (db : DB) (fs : FS) (env : Env)
    (uid : Nat) (flag : Bool) (fault : Option DbStep)
    (hu : userExists db uid = false) :
    deleteUserModel db fs env uid flag fault =
      { result := .error .userNotFound, db := db, fs := fs, events := [] } :=
  deleteUserModel_notFound db fs env uid flag fault hu

theorem C7_user_not_found_short_circuits_witness :
    userExists sampleDB 3 = false ∧
      deleteUserModel sampleDB sampleFS sampleEnv 3 true none =
        { result := .error .userNotFound, db := sampleDB, fs := sampleFS,
          events := [] } :=
  ⟨by decide,
    C7_user_not_found_short_circuits sampleDB sampleFS sampleEnv 3 true none
      (by decide)⟩

/-- C1: any database failure inside the transactional cleanup stage rolls
the whole transaction back (the database is exactly the pre-call state)
and the exception propagates unchanged; in particular a failure forced at
the queue-record deletion step leaves every asset record, content-item
record and listen record present. -/
theorem C1_transaction_rollback (db : DB) (fs : FS) (env : Env) (uid : Nat)
    (flag : Bool) (hu : userExists db uid = true) :
    (∀ (fault : Option DbStep) (s : DbStep),
        (deleteUserModel db fs env uid flag fault).result =
          .error (.storageError s) →
        (deleteUserModel db fs env uid flag fault).db = db) ∧
      (deleteUserModel db fs env uid flag (some DbStep.queueDestroy)).result =
        .error (.storageError DbStep.queueDestroy) ∧
      (deleteUserModel db fs env uid flag (some DbStep.queueDestroy)).db = db := by
  refine ⟨fun fault s h => deleteUserModel_error_db db fs env uid flag fault s h,
    ?_, ?_⟩
  · simp only [deleteUserModel, hu, Bool.not_true, Bool.false_eq_true, if_false]
    rw [dbCleanup_queueFault]
  · simp only [deleteUserModel, hu, Bool.not_true, Bool.false_eq_true, if_false]
    rw [dbCleanup_queueFault]

theorem C1_transaction_rollback_witness :
    userExists sampleDB 5 = true ∧
      (deleteUserModel sampleDB sampleFS sampleEnv 5 false
          (some DbStep.queueDestroy)).result =
        .error (.storageError DbStep.queueDestroy) ∧
      (deleteUserModel sampleDB sampleFS sampleEnv 5 false
          (some DbStep.queueDestroy)).db = sampleDB :=
  ⟨by decide,
    (C1_transaction_rollback sampleDB sampleFS sampleEnv 5 false (by decide)).2⟩

/-- A user whose id is 42, admin before anonymization. -/
def db42 : DB :=
  { users := [{ id := 42, email := "old@x.y", isAdmin := true, username := "bob", rest := 7 }]
    meditations := []
    contractsUsersMeditations := []
    contractsMeditationsEleven := []
    elevenLabsFiles := []
    listens := []
    queues := [] }

/-- The empty filesystem. -/
def fsEmpty : FS := { files := [], unlinkFailing := [] }

/-- C4: with the anonymize flag, the user row is updated in place: email
becomes the string "BenevolentUser" ++ id ++ "@go-lightly.love", isAdmin is
forced to false, every other field is untouched, and no user row is
deleted. -/
theorem C4_anonymize_updates_user_row (db : DB) (fs : FS) (env : Env)
    (uid : Nat) (hu : userExists db uid = true) :
    (deleteUserModel db fs env uid true none).db.users =
        db.users.map (applyAnonymize uid) ∧
      (∀ u ∈ db.users, u.id = uid →
        ({ u with
            email := "BenevolentUser" ++ toString uid ++ "@go-lightly.love"
            isAdmin := false } : UserRec) ∈
          (deleteUserModel db fs env uid true none).db.users) ∧
      (deleteUserModel db fs env uid true none).db.users.length =
        db.users.length := by
  rw [deleteUserModel_none_eq db fs env uid true hu]
  refine ⟨rfl, ?_, by simp⟩
  intro u hu' hid
  simp only [if_true]
  refine List.mem_map.mpr ⟨u, hu', ?_⟩
  simp [applyAnonymize, hid]

theorem C4_anonymize_updates_user_row_witness :
    userExists db42 42 = true ∧
      ({ id := 42, email := "BenevolentUser42@go-lightly.love",
         isAdmin := false, username := "bob", rest := 7 } : UserRec) ∈
        (deleteUserModel db42 fsEmpty sampleEnv 42 true none).db.users ∧
      (deleteUserModel db42 fsEmpty sampleEnv 42 true none).db.users.length =
        db42.users.length :=
  ⟨by decide,
    (C4_anonymize_updates_user_row db42 fsEmpty sampleEnv 42 (by decide)).2.1
      { id := 42, email := "old@x.y", isAdmin := true, username := "bob", rest := 7 }
      (by decide) rfl,
    (C4_anonymize_updates_user_row db42 fsEmpty sampleEnv 42 (by decide)).2.2⟩

/-- C5: listen and queue records are deleted by userId, unconditionally and
for either value of the anonymize flag: the surviving listen rows are
exactly those of other users (so listen rows for preserved public items of
the deleted user are purged too), and likewise for queue rows. -/
theorem C5_listen_queue_unconditional (db : DB) (fs : FS) (env : Env)
    (uid : Nat) (flag : Bool) (hu : userExists db uid = true) :
    (deleteUserModel db fs env uid flag none).db.listens =
        db.listens.filter (fun l => !(l.userId == uid)) ∧
      (deleteUserModel db fs env uid flag none).db.queues =
        db.queues.filter (fun q => !(q.userId == uid)) ∧
      (∀ l ∈ db.listens, l.userId = uid →
        l ∉ (deleteUserModel db fs env uid flag none).db.listens) ∧
      (∀ l ∈ db.listens, l.userId ≠ uid →
        l ∈ (deleteUserModel db fs env uid flag none).db.listens) := by
  rw [deleteUserModel_none_eq db fs env uid flag hu]
  refine ⟨rfl, rfl, ?_, ?_⟩
  · intro l hl hlid hmem
    have := (List.mem_filter.mp hmem).2
    simp [hlid] at this
  · intro l hl hlid
    exact List.mem_filter.mpr ⟨hl, by simpa using hlid⟩

theorem C5_listen_queue_unconditional_witness :
    userExists sampleDB 5 = true ∧
      (deleteUserModel sampleDB sampleFS sampleEnv 5 true none).db.listens =
        sampleDB.listens.filter (fun l => !(l.userId == 5)) ∧
      (⟨5, 2, 3, true⟩ : ListenRec) ∉
        (deleteUserModel sampleDB sampleFS sampleEnv 5 true none).db.listens ∧
      (⟨7, 1, 1, false⟩ : ListenRec) ∈
        (deleteUserModel sampleDB sampleFS sampleEnv 5 true none).db.listens :=
  ⟨by decide,
    (C5_listen_queue_unconditional sampleDB sampleFS sampleEnv 5 true (by decide)).1,
    (C5_listen_queue_unconditional sampleDB sampleFS sampleEnv 5 true (by decide)).2.2.1
      ⟨5, 2, 3, true⟩ (by decide) rfl,
    (C5_listen_queue_unconditional sampleDB sampleFS sampleEnv 5 true (by decide)).2.2.2
      ⟨7, 1, 1, false⟩ (by decide) (by decide)⟩

/-- C6: on success the returned record has every field populated: the input
userId, the content-items-deleted count equal to the transactional
destroy-count of the meditation deletion step (0 when the target set is
empty), the asset-files-deleted count equal to the number of asset files
actually unlinked in the filesystem stage (already-missing files do not
count, so the count is 0 when no resolved file is on disk), and the
anonymization boolean; the meditation-file count of the filesystem stage
appears nowhere in the result. -/
theorem C6_result_aggregation (db : DB) (fs : FS) (env : Env) (uid : Nat)
    (flag : Bool) (hu : userExists db uid = true) :
    ∃ r, (deleteUserModel db fs env uid flag none).result = .ok r ∧
      r.userId = uid ∧
      r.meditationsDeleted =
        (db.meditations.filter
          (fun m => (resolveTargetMedIds db uid flag).contains m.id)).length ∧
      r.elevenLabsFilesDeleted =
        (deleteAssetFiles fs
          (resolveAssetFiles db
            (resolveAssetIds db (resolveTargetMedIds db uid flag)))).2.1 ∧
      r.benevolentUserCreated = flag ∧
      (resolveTargetMedIds db uid flag = [] → r.meditationsDeleted = 0) ∧
      ((∀ f ∈ resolveAssetFiles db
          (resolveAssetIds db (resolveTargetMedIds db uid flag)),
          f.fullPath ∉ fs.files) → r.elevenLabsFilesDeleted = 0) := by
  rw [deleteUserModel_none_eq db fs env uid flag hu]
  refine ⟨_, rfl, rfl, rfl, rfl, rfl, ?_, ?_⟩
  · intro ht
    simp [ht]
  · intro hmiss
    simp [deleteAssetFiles_all_missing _ fs hmiss]

theorem C6_result_aggregation_witness :
    userExists sampleDB 5 = true ∧
      ∃ r, (deleteUserModel sampleDB sampleFS sampleEnv 5 false none).result = .ok r ∧
        r.userId = 5 ∧
        r.meditationsDeleted =
          (sampleDB.meditations.filter
            (fun m => (resolveTargetMedIds sampleDB 5 false).contains m.id)).length ∧
        r.elevenLabsFilesDeleted =
          (deleteAssetFiles sampleFS
            (resolveAssetFiles sampleDB
              (resolveAssetIds sampleDB (resolveTargetMedIds sampleDB 5 false)))).2.1 ∧
        r.benevolentUserCreated = false ∧
        (resolveTargetMedIds sampleDB 5 false = [] → r.meditationsDeleted = 0) ∧
        ((∀ f ∈ resolveAssetFiles sampleDB
            (resolveAssetIds sampleDB (resolveTargetMedIds sampleDB 5 false)),
            f.fullPath ∉ sampleFS.files) → r.elevenLabsFilesDeleted = 0) :=
  ⟨by decide, C6_result_aggregation sampleDB sampleFS sampleEnv 5 false (by decide)⟩

theorem deleteMeditationFiles_frame (db : DB) (env : Env) (fs : FS)
    (t : List Nat) (p : String) (hp : p ∈ fs.files)
    (hne : ∀ m ∈ db.meditations.filter (fun m => t.contains m.id),
      medFullPath env m ≠ some p) :
    p ∈ (deleteMeditationFiles db env fs t).1.files := by
  unfold deleteMeditationFiles
  by_cases ht : t.isEmpty
  · simpa [ht] using hp
  · simp only [ht, Bool.false_eq_true, if_false]
    exact deleteMeditationFilesLoop_frame _ env fs p hp hne

/-- C2: with anonymize = true the deletion-target set is exactly the
private-filtered subset of the user's owned meditations, and with the flag
false it is the full owned set; every non-private meditation row survives
the operation with all its fields intact, and any file on disk that is not
one of the resolved asset paths and not the output path of a targeted
meditation survives the filesystem stage. -/
theorem C2_privacy_filter (db : DB) (fs : FS) (env : Env) (uid : Nat) :
    resolveTargetMedIds db uid true =
        (db.meditations.filter
          (fun m => (ownedMeditationIds db uid).contains m.id &&
            m.visibility == "private")).map (fun m => m.id) ∧
      resolveTargetMedIds db uid false = ownedMeditationIds db uid ∧
      ((db.meditations.map MeditationRec.id).Nodup →
        ∀ m ∈ db.meditations, m.visibility ≠ "private" →
        m ∈ (deleteUserModel db fs env uid true none).db.meditations) ∧
      (∀ p ∈ fs.files,
        (∀ f ∈ resolveAssetFiles db
            (resolveAssetIds db (resolveTargetMedIds db uid true)),
          p ≠ f.fullPath) →
        (∀ m ∈ db.meditations.filter
            (fun m => (resolveTargetMedIds db uid true).contains m.id),
          medFullPath env m ≠ some p) →
        p ∈ (deleteUserModel db fs env uid true none).fs.files) := by
  have htarget : resolveTargetMedIds db uid true =
      (db.meditations.filter
        (fun m => (ownedMeditationIds db uid).contains m.id &&
          m.visibility == "private")).map (fun m => m.id) := by
    unfold resolveTargetMedIds
    by_cases ho : (ownedMeditationIds db uid).isEmpty
    · have ho' : ownedMeditationIds db uid = [] := List.isEmpty_iff.mp ho
      simp [ho, ho']
    · simp [ho]
  have hnotin : ∀ m ∈ db.meditations,
      (db.meditations.map MeditationRec.id).Nodup → m.visibility ≠ "private" →
      ¬((resolveTargetMedIds db uid true).contains m.id = true) := by
    intro m hm hnd hv hc
    rw [htarget] at hc
    have hc' := List.contains_iff_exists_mem_beq.mp hc
    rcases hc' with ⟨x, hx, hbeq⟩
    rcases List.mem_map.mp hx with ⟨m', hm', rfl⟩
    have hm'mem : m' ∈ db.meditations := (List.mem_filter.mp hm').1
    have hm'priv : m'.visibility = "private" := by
      have := (List.mem_filter.mp hm').2
      simp only [Bool.and_eq_true, beq_iff_eq] at this
      exact this.2
    have hid : m.id = m'.id := by simpa using hbeq
    have : m = m' := List.inj_on_of_nodup_map hnd hm hm'mem hid
    exact hv (this ▸ hm'priv)
  refine ⟨htarget, ?_, ?_, ?_⟩
  · unfold resolveTargetMedIds
    by_cases ho : (ownedMeditationIds db uid).isEmpty
    · have ho' : ownedMeditationIds db uid = [] := List.isEmpty_iff.mp ho
      simp [ho, ho']
    · simp [ho]
  · intro hnd m hm hv
    by_cases hu : userExists db uid
    · rw [deleteUserModel_none_eq db fs env uid true hu]
      exact List.mem_filter.mpr ⟨hm, by simpa using hnotin m hm hnd hv⟩
    · have hu' : userExists db uid = false := by simpa using hu
      rw [deleteUserModel_notFound db fs env uid true none hu']
      exact hm
  · intro p hp hassets hmeds
    by_cases hu : userExists db uid
    · rw [deleteUserModel_none_eq db fs env uid true hu]
      refine deleteMeditationFiles_frame db env _ _ p ?_ hmeds
      exact deleteAssetFiles_files_frame _ fs p hp hassets
    · have hu' : userExists db uid = false := by simpa using hu
      rw [deleteUserModel_notFound db fs env uid true none hu']
      exact hp

theorem C2_privacy_filter_witness :
    ({ id := 2, visibility := "public", filePath := some "/m",
       filename := some "two.mp3" } : MeditationRec) ∈
        (deleteUserModel sampleDB sampleFS sampleEnv 5 true none).db.meditations ∧
      "/m/two.mp3" ∈
        (deleteUserModel sampleDB sampleFS sampleEnv 5 true none).fs.files :=
  ⟨(C2_privacy_filter sampleDB sampleFS sampleEnv 5).2.2.1 (by decide)
      { id := 2, visibility := "public", filePath := some "/m",
        filename := some "two.mp3" } (by decide) (by decide),
    (C2_privacy_filter sampleDB sampleFS sampleEnv 5).2.2.2 "/m/two.mp3"
      (by decide) (by decide) (by decide)⟩

/-- The paragraph-8 scenario state: user 5 owns meditations 1-3 (private)
and 4-8 (public); nine distinct ElevenLabs assets 11-19 are linked across
all eight meditations, with asset 11 shared between private meditation 1
and public meditation 4; every file is present on disk. -/
def db8 : DB :=
  { users := [{ id := 5, email := "five@x.y", isAdmin := false, username := "five", rest := 0 }]
    meditations :=
      [{ id := 1, visibility := "private", filePath := some "/m", filename := some "m1.mp3" },
       { id := 2, visibility := "private", filePath := some "/m", filename := some "m2.mp3" },
       { id := 3, visibility := "private", filePath := some "/m", filename := some "m3.mp3" },
       { id := 4, visibility := "public", filePath := some "/m", filename := some "m4.mp3" },
       { id := 5, visibility := "public", filePath := some "/m", filename := some "m5.mp3" },
       { id := 6, visibility := "public", filePath := some "/m", filename := some "m6.mp3" },
       { id := 7, visibility := "public", filePath := some "/m", filename := some "m7.mp3" },
       { id := 8, visibility := "public", filePath := some "/m", filename := some "m8.mp3" }]
    contractsUsersMeditations :=
      [⟨5, 1⟩, ⟨5, 2⟩, ⟨5, 3⟩, ⟨5, 4⟩, ⟨5, 5⟩, ⟨5, 6⟩, ⟨5, 7⟩, ⟨5, 8⟩]
    contractsMeditationsEleven :=
      [⟨1, 11⟩, ⟨4, 11⟩, ⟨1, 12⟩, ⟨2, 13⟩, ⟨3, 14⟩, ⟨5, 15⟩, ⟨6, 16⟩,
       ⟨7, 17⟩, ⟨8, 18⟩, ⟨2, 19⟩]
    elevenLabsFiles :=
      [{ id := 11, filePath := "/e", filename := "a11.mp3" },
       { id := 12, filePath := "/e", filename := "a12.mp3" },
       { id := 13, filePath := "/e", filename := "a13.mp3" },
       { id := 14, filePath := "/e", filename := "a14.mp3" },
       { id := 15, filePath := "/e", filename := "a15.mp3" },
       { id := 16, filePath := "/e", filename := "a16.mp3" },
       { id := 17, filePath := "/e", filename := "a17.mp3" },
       { id := 18, filePath := "/e", filename := "a18.mp3" },
       { id := 19, filePath := "/e", filename := "a19.mp3" }]
    listens := [⟨5, 4, 2, true⟩, ⟨5, 1, 1, false⟩]
    queues := [⟨1, 5⟩] }

/-- A filesystem holding every file of `db8`. -/
def fs8 : FS :=
  { files :=
      ["/m/m1.mp3", "/m/m2.mp3", "/m/m3.mp3", "/m/m4.mp3", "/m/m5.mp3",
       "/m/m6.mp3", "/m/m7.mp3", "/m/m8.mp3", "/e/a11.mp3", "/e/a12.mp3",
       "/e/a13.mp3", "/e/a14.mp3", "/e/a15.mp3", "/e/a16.mp3", "/e/a17.mp3",
       "/e/a18.mp3", "/e/a19.mp3"]
    unlinkFailing := [] }

/-- C3 counterexample: in the paragraph-8 state `db8`, asset record 11 is
referenced both by targeted private meditation 1 and by preserved public
meditation 4; after deleteUser with anonymize = true the public row and
its join row survive, yet asset record 11 is deleted from the database and
its file unlinked, refuting the claim that an asset record referenced by a
preserved public content item is not deleted. -/
theorem C3_shared_asset_counterexample :
    ({ meditationId := 4, elevenLabsFileId := 11 } : ContractMEL) ∈
        (deleteUserModel db8 fs8 sampleEnv 5 true none).db.contractsMeditationsEleven ∧
      ({ id := 4, visibility := "public", filePath := some "/m",
         filename := some "m4.mp3" } : MeditationRec) ∈
        (deleteUserModel db8 fs8 sampleEnv 5 true none).db.meditations ∧
      ({ id := 11, filePath := "/e", filename := "a11.mp3" } : ElevenLabsFileRec) ∉
        (deleteUserModel db8 fs8 sampleEnv 5 true none).db.elevenLabsFiles ∧
      "/e/a11.mp3" ∉ (deleteUserModel db8 fs8 sampleEnv 5 true none).fs.files ∧
      (deleteUserModel db8 fs8 sampleEnv 5 true none).result =
        .ok { userId := 5, meditationsDeleted := 3,
              elevenLabsFilesDeleted := 5, benevolentUserCreated := true } := by
  refine ⟨by decide, by decide, by decide, by decide, ?_⟩
  rfl

/-- C3 (amended): with anonymize = true exactly the private-targeted
meditations are deleted and exactly the asset records referenced by at
least one targeted meditation are deleted (deduplication is scoped to the
batch); an asset record referenced by no targeted meditation survives, but
one shared between a targeted private item and a preserved public item is
still deleted. -/
theorem C3_batch_scoped_asset_deletion (db : DB) (fs : FS) (env : Env)
    (uid : Nat) (hu : userExists db uid = true) :
    (deleteUserModel db fs env uid true none).db.meditations =
        db.meditations.filter
          (fun m => !((resolveTargetMedIds db uid true).contains m.id)) ∧
      (deleteUserModel db fs env uid true none).db.elevenLabsFiles =
        db.elevenLabsFiles.filter
          (fun f =>
            !((resolveAssetIds db (resolveTargetMedIds db uid true)).contains f.id)) ∧
      (∀ f ∈ db.elevenLabsFiles,
        (∀ c ∈ db.contractsMeditationsEleven, c.elevenLabsFileId = f.id →
          ¬((resolveTargetMedIds db uid true).contains c.meditationId = true)) →
        f ∈ (deleteUserModel db fs env uid true none).db.elevenLabsFiles) := by
  rw [deleteUserModel_none_eq db fs env uid true hu]
  refine ⟨rfl, rfl, ?_⟩
  intro f hf hnoref
  refine List.mem_filter.mpr ⟨hf, ?_⟩
  simp only [Bool.not_eq_true']
  by_contra hc
  have hc' : (resolveAssetIds db (resolveTargetMedIds db uid true)).contains f.id = true := by
    simpa using hc
  have hfid : f.id ∈ resolveAssetIds db (resolveTargetMedIds db uid true) := by
    simpa using hc'
  unfold resolveAssetIds at hfid
  by_cases ht : (resolveTargetMedIds db uid true).isEmpty
  · simp [ht] at hfid
  · simp only [ht, Bool.false_eq_true, if_false] at hfid
    rw [mem_dedupKeepFirst] at hfid
    rcases List.mem_map.mp hfid with ⟨c, hc1, hc2⟩
    have hcmem : c ∈ db.contractsMeditationsEleven := (List.mem_filter.mp hc1).1
    have hctarget := (List.mem_filter.mp hc1).2
    exact hnoref c hcmem hc2 hctarget

theorem C3_batch_scoped_asset_deletion_witness :
    userExists db8 5 = true ∧
      ({ id := 15, filePath := "/e", filename := "a15.mp3" } : ElevenLabsFileRec) ∈
        (deleteUserModel db8 fs8 sampleEnv 5 true none).db.elevenLabsFiles :=
  ⟨by decide,
    (C3_batch_scoped_asset_deletion db8 fs8 sampleEnv 5 (by decide)).2.2
      { id := 15, filePath := "/e", filename := "a15.mp3" } (by decide)
      (by decide)⟩

/-- C8: filesystem-stage errors are absorbed locally and the stage can
never fail deleteUser: with no injected database fault the operation
succeeds for any filesystem contents (missing files, failing unlinks); a
path absent from disk yields a not-found warning and no change; a second
run against an already-deleted path yields the not-found warning instead
of throwing; and an unlink that throws is logged while the loop continues
over the remaining files. -/
theorem C8_filesystem_errors_absorbed (db : DB) (fs : FS) (env : Env)
    (uid : Nat) (flag : Bool) :
    (userExists db uid = true →
        ∃ r, (deleteUserModel db fs env uid flag none).result = .ok r) ∧
      (∀ (fs' : FS) (f : AssetFileToDelete), f.fullPath ∉ fs'.files →
        deleteAssetFiles fs' [f] =
          (fs', 0, [Event.fsAssetNotFound f.fullPath])) ∧
      (∀ (fs' : FS) (f : AssetFileToDelete), fs'.files.Nodup →
        f.fullPath ∈ fs'.files → f.fullPath ∉ fs'.unlinkFailing →
        deleteAssetFiles (deleteAssetFiles fs' [f]).1 [f] =
          ((deleteAssetFiles fs' [f]).1, 0,
            [Event.fsAssetNotFound f.fullPath])) ∧
      (∀ (fs' : FS) (f : AssetFileToDelete) (rest : List AssetFileToDelete),
        f.fullPath ∈ fs'.files → f.fullPath ∈ fs'.unlinkFailing →
        deleteAssetFiles fs' (f :: rest) =
          ((deleteAssetFiles fs' rest).1, (deleteAssetFiles fs' rest).2.1,
            Event.fsAssetUnlinkFailed f.fullPath ::
              (deleteAssetFiles fs' rest).2.2)) := by
  refine ⟨?_, ?_, ?_, ?_⟩
  · intro hu
    rw [deleteUserModel_none_eq db fs env uid flag hu]
    exact ⟨_, rfl⟩
  · intro fs' f h
    exact deleteAssetFiles_missing_single fs' f h
  · intro fs' f hnd h1 h2
    have hfirst : deleteAssetFiles fs' [f] =
        ({ fs' with files := fs'.files.erase f.fullPath }, 1,
          [Event.fsAssetDeleted f.fullPath]) := by
      simp [deleteAssetFiles, h1, h2]
    rw [hfirst]
    exact deleteAssetFiles_missing_single _ f (hnd.not_mem_erase)
  · intro fs' f rest h1 h2
    exact deleteAssetFiles_failing_head fs' f rest h1 h2

/-- A filesystem whose only file throws on unlink. -/
def fsFail : FS := { files := ["/bad"], unlinkFailing := ["/bad"] }

theorem C8_filesystem_errors_absorbed_witness :
    (∃ r, (deleteUserModel sampleDB fsFail sampleEnv 5 true none).result = .ok r) ∧
      deleteAssetFiles sampleFS [{ id := 9, fullPath := "/nope" }] =
        (sampleFS, 0, [Event.fsAssetNotFound "/nope"]) ∧
      deleteAssetFiles
          (deleteAssetFiles sampleFS [{ id := 9, fullPath := "/e/nine.mp3" }]).1
          [{ id := 9, fullPath := "/e/nine.mp3" }] =
        ((deleteAssetFiles sampleFS [{ id := 9, fullPath := "/e/nine.mp3" }]).1,
          0, [Event.fsAssetNotFound "/e/nine.mp3"]) ∧
      deleteAssetFiles fsFail [{ id := 1, fullPath := "/bad" }] =
        ((deleteAssetFiles fsFail []).1, (deleteAssetFiles fsFail []).2.1,
          Event.fsAssetUnlinkFailed "/bad" ::
            (deleteAssetFiles fsFail []).2.2) :=
  ⟨(C8_filesystem_errors_absorbed sampleDB fsFail sampleEnv 5 true).1 (by decide),
    (C8_filesystem_errors_absorbed sampleDB fsFail sampleEnv 5 true).2.1
      sampleFS { id := 9, fullPath := "/nope" } (by decide),
    (C8_filesystem_errors_absorbed sampleDB fsFail sampleEnv 5 true).2.2.1
      sampleFS { id := 9, fullPath := "/e/nine.mp3" } (by decide) (by decide)
      (by decide),
    (C8_filesystem_errors_absorbed sampleDB fsFail sampleEnv 5 true).2.2.2
      fsFail { id := 1, fullPath := "/bad" } [] (by decide) (by decide)⟩

theorem deleteMeditationFiles_events_fsKind (db : DB) (env : Env) (fs : FS)
    (t : List Nat) :
    ∀ e ∈ (deleteMeditationFiles db env fs t).2.2, e.isDb = false := by
  unfold deleteMeditationFiles
  by_cases ht : t.isEmpty
  · simp [ht]
  · simp only [ht, Bool.false_eq_true, if_false]
    exact deleteMeditationFilesLoop_events_fsKind _ env fs

theorem deleteUserModel_events (db : DB) (fs : FS) (env : Env) (uid : Nat)
    (flag : Bool) (fault : Option DbStep) (hu : userExists db uid = true) :
    (deleteUserModel db fs env uid flag fault).events =
      (deleteAssetFiles fs
        (resolveAssetFiles db
          (resolveAssetIds db (resolveTargetMedIds db uid flag)))).2.2 ++
      (deleteMeditationFiles db env
        (deleteAssetFiles fs
          (resolveAssetFiles db
            (resolveAssetIds db (resolveTargetMedIds db uid flag)))).1
        (resolveTargetMedIds db uid flag)).2.2 ++
      (match dbCleanup db uid flag (resolveTargetMedIds db uid flag)
          (resolveAssetIds db (resolveTargetMedIds db uid flag)) fault with
        | .ok v => v.2.2.2
        | .error e => e.2) := by
  simp only [deleteUserModel, hu, Bool.not_true, Bool.false_eq_true, if_false]
  rcases hA : deleteAssetFiles fs
      (resolveAssetFiles db
        (resolveAssetIds db (resolveTargetMedIds db uid flag))) with
    ⟨fsA, cA, evA⟩
  rcases hM : deleteMeditationFiles db env fsA
      (resolveTargetMedIds db uid flag) with ⟨fsM, cM, evM⟩
  rcases hdc : dbCleanup db uid flag (resolveTargetMedIds db uid flag)
      (resolveAssetIds db (resolveTargetMedIds db uid flag)) fault with
    e | v
  · rcases e with ⟨s, ev⟩
    simp [hA, hM, hdc]
  · rcases v with ⟨db1, ⟨mc, ⟨bn, evdb⟩⟩⟩
    simp [hA, hM, hdc]

/-- C9: in every execution (any injected database fault included) the
event trace is the filesystem-stage events followed by database events
only, and the database events always follow the fixed order asset-records,
content-items, listen-records, queue-records, user update/delete: in a
faulted run they are a prefix of that sequence, in a successful run the
whole sequence; every targeted asset file gets exactly one filesystem
attempt event, all filesystem-stage events are non-database events, and
all events of the fixed sequence are database events. -/
theorem C9_phase_and_step_ordering (db : DB) (fs : FS) (env : Env)
    (uid : Nat) (flag : Bool) (hu : userExists db uid = true) :
    (∀ fault : Option DbStep, ∃ evDb rest,
        (deleteUserModel db fs env uid flag fault).events =
          (deleteAssetFiles fs
            (resolveAssetFiles db
              (resolveAssetIds db (resolveTargetMedIds db uid flag)))).2.2 ++
          (deleteMeditationFiles db env
            (deleteAssetFiles fs
              (resolveAssetFiles db
                (resolveAssetIds db (resolveTargetMedIds db uid flag)))).1
            (resolveTargetMedIds db uid flag)).2.2 ++ evDb ∧
        evDb ++ rest =
          (if (resolveAssetIds db (resolveTargetMedIds db uid flag)).isEmpty
              then []
              else [Event.dbDestroyAssets
                (resolveAssetIds db (resolveTargetMedIds db uid flag))]) ++
            (if (resolveTargetMedIds db uid flag).isEmpty then []
              else [Event.dbDestroyMeds (resolveTargetMedIds db uid flag)]) ++
            [Event.dbDestroyListens uid, Event.dbDestroyQueues uid,
              if flag then Event.dbUpdateUser uid
              else Event.dbDeleteUser uid]) ∧
      (deleteUserModel db fs env uid flag none).events =
        (deleteAssetFiles fs
          (resolveAssetFiles db
            (resolveAssetIds db (resolveTargetMedIds db uid flag)))).2.2 ++
        (deleteMeditationFiles db env
          (deleteAssetFiles fs
            (resolveAssetFiles db
              (resolveAssetIds db (resolveTargetMedIds db uid flag)))).1
          (resolveTargetMedIds db uid flag)).2.2 ++
        ((if (resolveAssetIds db (resolveTargetMedIds db uid flag)).isEmpty
            then []
            else [Event.dbDestroyAssets
              (resolveAssetIds db (resolveTargetMedIds db uid flag))]) ++
          (if (resolveTargetMedIds db uid flag).isEmpty then []
            else [Event.dbDestroyMeds (resolveTargetMedIds db uid flag)]) ++
          [Event.dbDestroyListens uid, Event.dbDestroyQueues uid,
            if flag then Event.dbUpdateUser uid else Event.dbDeleteUser uid]) ∧
      (∀ e ∈ (deleteAssetFiles fs
          (resolveAssetFiles db
            (resolveAssetIds db (resolveTargetMedIds db uid flag)))).2.2 ++
          (deleteMeditationFiles db env
            (deleteAssetFiles fs
              (resolveAssetFiles db
                (resolveAssetIds db (resolveTargetMedIds db uid flag)))).1
            (resolveTargetMedIds db uid flag)).2.2,
        e.isDb = false) ∧
      (∀ e ∈ (if (resolveAssetIds db (resolveTargetMedIds db uid flag)).isEmpty
            then []
            else [Event.dbDestroyAssets
              (resolveAssetIds db (resolveTargetMedIds db uid flag))]) ++
          (if (resolveTargetMedIds db uid flag).isEmpty then []
            else [Event.dbDestroyMeds (resolveTargetMedIds db uid flag)]) ++
          [Event.dbDestroyListens uid, Event.dbDestroyQueues uid,
            if flag then Event.dbUpdateUser uid else Event.dbDeleteUser uid],
        e.isDb = true) ∧
      (deleteAssetFiles fs
        (resolveAssetFiles db
          (resolveAssetIds db (resolveTargetMedIds db uid flag)))).2.2.length =
        (resolveAssetFiles db
          (resolveAssetIds db (resolveTargetMedIds db uid flag))).length := by
  have hif : ∀ (x : Event) (c : Bool), x.isDb = true →
      ∀ e ∈ (if c = true then ([] : List Event) else [x]), e.isDb = true := by
    intro x c hx e he
    cases c
    · simp only [Bool.false_eq_true, if_false, List.mem_singleton] at he
      subst he
      exact hx
    · simp at he
  refine ⟨?_, ?_, ?_, ?_, ?_⟩
  · intro fault
    cases fault with
    | none =>
      rw [deleteUserModel_events db fs env uid flag none hu]
      exact ⟨_, [], rfl, by rw [dbCleanup_none]; simp⟩
    | some s =>
      cases s with
      | elevenLabsDestroy =>
        by_cases ha : (resolveAssetIds db (resolveTargetMedIds db uid flag)).isEmpty
        · rw [deleteUserModel_events db fs env uid flag
            (some DbStep.elevenLabsDestroy) hu]
          exact ⟨_, [], rfl,
            by
              rw [dbCleanup_elevenFault_noFire db uid flag _ _ ha,
                dbCleanup_none]
              simp⟩
        · rw [deleteUserModel_events db fs env uid flag
            (some DbStep.elevenLabsDestroy) hu]
          exact ⟨_, _, rfl,
            by
              rw [dbCleanup_elevenFault_fire db uid flag _ _
                (by simpa using ha)]
              simp only [List.nil_append]
              rfl⟩
      | meditationDestroy =>
        by_cases ht : (resolveTargetMedIds db uid flag).isEmpty
        · rw [deleteUserModel_events db fs env uid flag
            (some DbStep.meditationDestroy) hu]
          exact ⟨_, [], rfl,
            by
              rw [dbCleanup_medFault_noFire db uid flag _ _ ht, dbCleanup_none]
              simp⟩
        · rw [deleteUserModel_events db fs env uid flag
            (some DbStep.meditationDestroy) hu]
          exact ⟨_, _, rfl,
            by
              rw [dbCleanup_medFault_fire db uid flag _ _ (by simpa using ht)]
              simp only [List.append_assoc]
              rfl⟩
      | listenDestroy =>
        rw [deleteUserModel_events db fs env uid flag
          (some DbStep.listenDestroy) hu]
        exact ⟨_, _, rfl,
          by rw [dbCleanup_listenFault]⟩
      | queueDestroy =>
        rw [deleteUserModel_events db fs env uid flag
          (some DbStep.queueDestroy) hu]
        exact ⟨_, _, rfl,
          by
            rw [dbCleanup_queueFault]
            simp only [List.append_assoc]
            rfl⟩
      | userStep =>
        rw [deleteUserModel_events db fs env uid flag
          (some DbStep.userStep) hu]
        exact ⟨_, _, rfl,
          by
            rw [dbCleanup_userFault]
            simp only [List.append_assoc]
            rfl⟩
  · rw [deleteUserModel_none_eq db fs env uid flag hu]
  · intro e he
    rcases List.mem_append.mp he with h | h
    · exact deleteAssetFiles_events_fsKind _ fs e h
    · exact deleteMeditationFiles_events_fsKind db env _ _ e h
  · intro e he
    rcases List.mem_append.mp he with h | h
    · rcases List.mem_append.mp h with h1 | h2
      · exact hif (Event.dbDestroyAssets
          (resolveAssetIds db (resolveTargetMedIds db uid flag))) _ rfl e h1
      · exact hif (Event.dbDestroyMeds (resolveTargetMedIds db uid flag)) _
          rfl e h2
    · rcases List.mem_cons.mp h with rfl | hr
      · rfl
      · rcases List.mem_cons.mp hr with rfl | hq
        · rfl
        · rcases List.mem_cons.mp hq with rfl | hn
          · cases flag <;> rfl
          · cases hn
  · exact deleteAssetFiles_events_length _ fs

theorem C9_phase_and_step_ordering_witness :
    ((deleteUserModel sampleDB sampleFS sampleEnv 5 true none).events =
      [Event.fsAssetDeleted "/e/nine.mp3", Event.fsMedDeleted "/m/one.mp3",
        Event.dbDestroyAssets [9], Event.dbDestroyMeds [1],
        Event.dbDestroyListens 5, Event.dbDestroyQueues 5,
        Event.dbUpdateUser 5]) ∧
      (∃ evDb rest,
        (deleteUserModel sampleDB sampleFS sampleEnv 5 true
            (some DbStep.queueDestroy)).events =
          (deleteAssetFiles sampleFS
            (resolveAssetFiles sampleDB
              (resolveAssetIds sampleDB (resolveTargetMedIds sampleDB 5 true)))).2.2 ++
          (deleteMeditationFiles sampleDB sampleEnv
            (deleteAssetFiles sampleFS
              (resolveAssetFiles sampleDB
                (resolveAssetIds sampleDB (resolveTargetMedIds sampleDB 5 true)))).1
            (resolveTargetMedIds sampleDB 5 true)).2.2 ++ evDb ∧
        evDb ++ rest =
          (if (resolveAssetIds sampleDB (resolveTargetMedIds sampleDB 5 true)).isEmpty
              then []
              else [Event.dbDestroyAssets
                (resolveAssetIds sampleDB (resolveTargetMedIds sampleDB 5 true))]) ++
            (if (resolveTargetMedIds sampleDB 5 true).isEmpty then []
              else [Event.dbDestroyMeds (resolveTargetMedIds sampleDB 5 true)]) ++
            [Event.dbDestroyListens 5, Event.dbDestroyQueues 5,
              Event.dbUpdateUser 5]) :=
  ⟨((C9_phase_and_step_ordering sampleDB sampleFS sampleEnv 5 true
        (by decide)).2.1).trans (by decide),
    (C9_phase_and_step_ordering sampleDB sampleFS sampleEnv 5 true
        (by decide)).1 (some DbStep.queueDestroy)⟩

/-- C10: a targeted meditation with a recorded filename but no stored
directory, when PATH_MP3_OUTPUT is also unset, only produces a warning:
the operation still succeeds, the row is still deleted in the transaction
and counted in meditationsDeleted, and the warning event is in the trace. -/
theorem C10_missing_output_dir_is_nonfatal (db : DB) (fs : FS) (env : Env)
    (uid : Nat) (flag : Bool) (m : MeditationRec) (fn : String)
    (hu : userExists db uid = true) (hm : m ∈ db.meditations)
    (ht : (resolveTargetMedIds db uid flag).contains m.id = true)
    (hfn : m.filename = some fn) (hfp : m.filePath = none)
    (henv : env.pathMp3Output = none) :
    (∃ r, (deleteUserModel db fs env uid flag none).result = .ok r ∧
        1 ≤ r.meditationsDeleted) ∧
      m ∉ (deleteUserModel db fs env uid flag none).db.meditations ∧
      Event.fsMedNoOutputPath m.id ∈
        (deleteUserModel db fs env uid flag none).events := by
  rw [deleteUserModel_none_eq db fs env uid flag hu]
  have hmfilter : m ∈ db.meditations.filter
      (fun m' => (resolveTargetMedIds db uid flag).contains m'.id) :=
    List.mem_filter.mpr ⟨hm, ht⟩
  refine ⟨⟨_, rfl, ?_⟩, ?_, ?_⟩
  · exact List.length_pos.mpr (List.ne_nil_of_mem hmfilter)
  · intro hmem
    have hpred := (List.mem_filter.mp hmem).2
    rw [ht] at hpred
    simp at hpred
  · apply List.mem_append_left
    apply List.mem_append_right
    unfold deleteMeditationFiles
    have htne : (resolveTargetMedIds db uid flag).isEmpty = false := by
      by_cases h : (resolveTargetMedIds db uid flag).isEmpty
      · have h' : resolveTargetMedIds db uid flag = [] := List.isEmpty_iff.mp h
        rw [h'] at ht
        simp at ht
      · simpa using h
    simp only [htne, Bool.false_eq_true, if_false]
    exact deleteMeditationFilesLoop_warn _ env _ m fn hmfilter hfn hfp henv

/-- A user owning one private meditation whose row stores no directory. -/
def db10 : DB :=
  { users := [{ id := 5, email := "a@b.c", isAdmin := false, username := "u", rest := 0 }]
    meditations :=
      [{ id := 1, visibility := "private", filePath := none, filename := some "one.mp3" }]
    contractsUsersMeditations := [⟨5, 1⟩]
    contractsMeditationsEleven := []
    elevenLabsFiles := []
    listens := []
    queues := [] }

/-- An environment with no configured output directory. -/
def envNone : Env := { pathMp3Output := none }

theorem C10_missing_output_dir_is_nonfatal_witness :
    userExists db10 5 = true ∧
      ((∃ r, (deleteUserModel db10 fsEmpty envNone 5 false none).result = .ok r ∧
          1 ≤ r.meditationsDeleted) ∧
        ({ id := 1, visibility := "private", filePath := none,
           filename := some "one.mp3" } : MeditationRec) ∉
          (deleteUserModel db10 fsEmpty envNone 5 false none).db.meditations ∧
        Event.fsMedNoOutputPath 1 ∈
          (deleteUserModel db10 fsEmpty envNone 5 false none).events) :=
  ⟨by decide,
    C10_missing_output_dir_is_nonfatal db10 fsEmpty envNone 5 false
      { id := 1, visibility := "private", filePath := none,
        filename := some "one.mp3" } "one.mp3"
      (by decide) (by decide) (by decide) rfl rfl rfl⟩
